import Mathlib

/-!
Shallow embedding of the `agent-prototype` repository: the placeholder tools
(`tools/placeholder_tools.py`), the MCP server's dispatcher
(`mcp_server/server.py`, `call_tool`), and the agent session
(`agent/claude_agent.py`: `execute_tool_call`, `chat`, `clear_conversation`,
`connect_to_mcp_server`, `disconnect_from_mcp_server`).

Python integers are modelled as `Int` (with `Nat` only where the source value
is a length), Python `None`-able strings as `Option String`, dictionaries with
fixed keys as structures, and the `dict.get(key, default)` pattern on literal
dictionaries as `List.lookup` over the corresponding association list.
`asyncio.sleep` calls have no observable effect and are dropped.
-/

namespace AgentPrototype

/-! ## Placeholder tools (`tools/placeholder_tools.py`) -/

/-- One entry of the `results` list returned by `web_search`. -/
structure SearchResult where
  title : String
  url : String
  snippet : String
  deriving DecidableEq

/-- The dictionary returned by `web_search`. -/
structure WebSearchResponse where
  query : String
  results : List SearchResult
  total_results : Int
  deriving DecidableEq

/-- `web_search(query, max_results)` from `placeholder_tools.py` lines 8-23:
builds `min(max_results, 3)` synthetic results (Python `range` of a negative
number is empty, hence `Int.toNat`) and echoes `max_results` as
`total_results`. -/
def web_search (query : String) (max_results : Int) : WebSearchResponse :=
  { query := query
  , results := (List.range (min max_results 3).toNat).map fun i =>
      { title := "Result " ++ toString (i + 1) ++ " for \x27" ++ query ++ "\x27"
      , url := "https://example.com/result-" ++ toString (i + 1)
      , snippet := "This is a placeholder snippet for result " ++
          toString (i + 1) ++ " about " ++ query ++ "." }
  , total_results := max_results }

/-- The dictionary returned by `file_operations`. -/
structure FileOperationsResponse where
  operation : String
  path : String
  status : String
  message : String
  content : Option String
  deriving DecidableEq

/-- `file_operations(operation, path, content=None)` from
`placeholder_tools.py` lines 26-43: the literal `operations` dictionary is the
association list below, read with `dict.get(operation, "Unknown operation")`;
`content if operation == "read" else None` is the final field. -/
def file_operations (operation : String) (path : String)
    (content : Option String) : FileOperationsResponse :=
  let operations : List (String × String) :=
    [ ("read", "Reading file: " ++ path)
    , ("write", "Writing to file: " ++ path ++ " with " ++
        toString (content.getD "").length ++ " characters")
    , ("delete", "Deleting file: " ++ path)
    , ("list", "Listing directory: " ++ path) ]
  { operation := operation
  , path := path
  , status := "success"
  , message := (operations.lookup operation).getD "Unknown operation"
  , content := if operation = "read" then content else none }

/-- One entry of the `issues` list returned by `code_analysis`. -/
structure CodeIssue where
  type : String
  line : Int
  message : String
  deriving DecidableEq

/-- The dictionary returned by `code_analysis`.  The Python float `7.5` is
modelled as the rational `7.5 : Rat`. -/
structure CodeAnalysisResponse where
  language : String
  lines_of_code : Int
  complexity_score : Rat
  issues : List CodeIssue
  suggestions : List String
  deriving DecidableEq

/-- `code_analysis(code, language="python")` from `placeholder_tools.py`
lines 46-70: canned output except for `lines_of_code = len(code.split('\n'))`. -/
def code_analysis (code : String) (language : String) : CodeAnalysisResponse :=
  { language := language
  , lines_of_code := (code.splitOn "\n").length
  , complexity_score := 7.5
  , issues :=
      [ { type := "warning", line := 10
        , message := "This is a placeholder warning message" }
      , { type := "info", line := 25
        , message := "This is a placeholder info message" } ]
  , suggestions :=
      [ "Consider adding more documentation"
      , "This is a placeholder suggestion" ] }

/-- The dictionary returned by `data_processing`, generic in the element type
of the input list (the Python annotation is `List[Dict[str, Any]]` but nothing
in the body depends on the elements). -/
structure DataProcessingResponse (α : Type) where
  operation : String
  input_count : Int
  output_count : Int
  status : String
  message : String
  preview : List α

/-- `data_processing(data, operation)` from `placeholder_tools.py`
lines 73-91: `output_count = max(0, len(data) - 1)`, message via
`dict.get(operation, "Unknown operation")`, and
`preview = data[:2] if data else []`. -/
def data_processing {α : Type} (data : List α) (operation : String) :
    DataProcessingResponse α :=
  let operations : List (String × String) :=
    [ ("filter", "Filtered " ++ toString data.length ++ " records")
    , ("sort", "Sorted " ++ toString data.length ++ " records")
    , ("aggregate", "Aggregated " ++ toString data.length ++ " records")
    , ("transform", "Transformed " ++ toString data.length ++ " records") ]
  { operation := operation
  , input_count := (data.length : Int)
  , output_count := max 0 ((data.length : Int) - 1)
  , status := "completed"
  , message := (operations.lookup operation).getD "Unknown operation"
  , preview := if data.isEmpty then [] else data.take 2 }

/-- The dictionary returned by `system_info`. -/
structure SystemInfoResponse where
  platform : String
  architecture : String
  memory_usage : String
  cpu_usage : String
  disk_space : String
  uptime : String
  processes : Int
  deriving DecidableEq

/-- `system_info()` from `placeholder_tools.py` lines 94-106: a fixed
snapshot. -/
def system_info : SystemInfoResponse :=
  { platform := "placeholder_os"
  , architecture := "x64"
  , memory_usage := "45%"
  , cpu_usage := "23%"
  , disk_space := "78% used"
  , uptime := "5 days, 3 hours"
  , processes := 127 }

/-! ## MCP server (`mcp_server/server.py`) -/

/-- The interesting part of a tool's JSON-schema as declared in `list_tools`
(`server.py` lines 21-113): the property names and the required ones.  The
per-property descriptions and types are elided; no theorem depends on them. -/
structure InputSchema where
  properties : List String
  required : List String
  deriving DecidableEq

/-- A tool registry entry, mirroring `mcp.types.Tool` as the server builds it. -/
structure ToolDescriptor where
  name : String
  description : String
  inputSchema : InputSchema
  deriving DecidableEq

/-- The registry returned by `list_tools` (`server.py` lines 21-113), in
declaration order. -/
def list_tools : List ToolDescriptor :=
  [ { name := "web_search"
    , description := "Search the web for information"
    , inputSchema := { properties := ["query", "max_results"], required := ["query"] } }
  , { name := "file_operations"
    , description := "Perform file operations (read, write, delete, list)"
    , inputSchema := { properties := ["operation", "path", "content"]
                     , required := ["operation", "path"] } }
  , { name := "code_analysis"
    , description := "Analyze code for issues and suggestions"
    , inputSchema := { properties := ["code", "language"], required := ["code"] } }
  , { name := "data_processing"
    , description := "Process data with various operations"
    , inputSchema := { properties := ["data", "operation"]
                     , required := ["data", "operation"] } }
  , { name := "system_info"
    , description := "Get system information"
    , inputSchema := { properties := [], required := [] } } ]

/-- The tool names the registry (and the `call_tool` dispatch chain) knows. -/
def known_tool_names : List String := list_tools.map ToolDescriptor.name

/-- A Python dictionary appearing as an element of `data_processing`'s input
list, modelled as an association list of string keys to string values. -/
abbrev PyDict : Type := List (String × String)

/-- The keyword-argument bag of a tool invocation.  Each constructor carries
the arguments the corresponding tool's Python signature accepts; bags bound
for one tool but shaped for another correspond to a Python `TypeError` inside
`call_tool`'s `try`, which its `except` turns into error text. -/
inductive ToolArguments where
  | web_search (query : String) (max_results : Int)
  | file_operations (operation : String) (path : String) (content : Option String)
  | code_analysis (code : String) (language : String)
  | data_processing (data : List PyDict) (operation : String)
  | system_info
  deriving DecidableEq

/-- `mcp.types.TextContent`: a content block with `type="text"` and a text
payload. -/
structure TextContent where
  type : String
  text : String
  deriving DecidableEq

/-- Renders an association of field names to rendered values.  Stands for
Python's `str()` on a dict; the precise serialisation text is irrelevant to
every theorem below, only that it is a plain string. -/
def renderFields (fields : List (String × String)) : String :=
  String.intercalate ", " (fields.map fun p => p.1 ++ ": " ++ p.2)

/-- Rendering of an `Option String` field, standing for Python `None` vs a
string value inside `str()`. -/
def renderOpt : Option String → String
  | none => "None"
  | some s => s

/-- `str()` of a `web_search` result dictionary. -/
def WebSearchResponse.render (r : WebSearchResponse) : String :=
  renderFields
    [ ("query", r.query)
    , ("results", String.intercalate "; " (r.results.map fun s =>
        renderFields [("title", s.title), ("url", s.url), ("snippet", s.snippet)]))
    , ("total_results", toString r.total_results) ]

/-- `str()` of a `file_operations` result dictionary. -/
def FileOperationsResponse.render (r : FileOperationsResponse) : String :=
  renderFields
    [ ("operation", r.operation), ("path", r.path), ("status", r.status)
    , ("message", r.message), ("content", renderOpt r.content) ]

/-- `str()` of a `code_analysis` result dictionary. -/
def CodeAnalysisResponse.render (r : CodeAnalysisResponse) : String :=
  renderFields
    [ ("language", r.language)
    , ("lines_of_code", toString r.lines_of_code)
    , ("complexity_score", toString r.complexity_score)
    , ("issues", String.intercalate "; " (r.issues.map fun i =>
        renderFields [("type", i.type), ("line", toString i.line), ("message", i.message)]))
    , ("suggestions", String.intercalate "; " r.suggestions) ]

/-- `str()` of a `data_processing` result dictionary (input elements rendered
field-wise). -/
def DataProcessingResponse.render (r : DataProcessingResponse PyDict) : String :=
  renderFields
    [ ("operation", r.operation)
    , ("input_count", toString r.input_count)
    , ("output_count", toString r.output_count)
    , ("status", r.status)
    , ("message", r.message)
    , ("preview", String.intercalate "; " (r.preview.map fun d =>
        renderFields (d : List (String × String)))) ]

/-- `str()` of a `system_info` result dictionary. -/
def SystemInfoResponse.render (r : SystemInfoResponse) : String :=
  renderFields
    [ ("platform", r.platform), ("architecture", r.architecture)
    , ("memory_usage", r.memory_usage), ("cpu_usage", r.cpu_usage)
    , ("disk_space", r.disk_space), ("uptime", r.uptime)
    , ("processes", toString r.processes) ]

/-- `call_tool(name, arguments)` from `server.py` lines 115-135.  The dispatch
is the source's if/elif chain on `name`; a known name with an argument bag of
the wrong shape raises a Python `TypeError` inside the `try`, which the
`except` renders as `"Error: " + str(e)` (the exact interpreter message is
modelled by a fixed text no theorem relies on); an unknown name raises
`ValueError(f"Unknown tool: {name}")`, which the same `except` renders as
`"Error: Unknown tool: {name}"`.  The handler itself never raises. -/
def call_tool (name : String) (arguments : ToolArguments) : List TextContent :=
  if name = "web_search" then
    match arguments with
    | .web_search q m => [{ type := "text", text := (web_search q m).render }]
    | _ => [{ type := "text", text := "Error: TypeError: unexpected keyword arguments for web_search" }]
  else if name = "file_operations" then
    match arguments with
    | .file_operations op p c => [{ type := "text", text := (file_operations op p c).render }]
    | _ => [{ type := "text", text := "Error: TypeError: unexpected keyword arguments for file_operations" }]
  else if name = "code_analysis" then
    match arguments with
    | .code_analysis c l => [{ type := "text", text := (code_analysis c l).render }]
    | _ => [{ type := "text", text := "Error: TypeError: unexpected keyword arguments for code_analysis" }]
  else if name = "data_processing" then
    match arguments with
    | .data_processing d op => [{ type := "text", text := (data_processing d op).render }]
    | _ => [{ type := "text", text := "Error: TypeError: unexpected keyword arguments for data_processing" }]
  else if name = "system_info" then
    match arguments with
    | .system_info => [{ type := "text", text := system_info.render }]
    | _ => [{ type := "text", text := "Error: TypeError: unexpected keyword arguments for system_info" }]
  else
    [{ type := "text", text := "Error: Unknown tool: " ++ name }]

/-! ## Agent session (`agent/claude_agent.py`) -/

/-- The dictionary `execute_tool_call` returns (`claude_agent.py`
lines 104-115). -/
structure ToolResult where
  success : Bool
  result : Option String
  error : Option String
  deriving DecidableEq

/-- `execute_tool_call(tool_name, tool_arguments)` from `claude_agent.py`
lines 90-115, composed with the server's `call_tool` handler over a healthy
MCP transport: the handler catches every exception internally and answers
with ordinary content, so the client's `try` branch always completes and the
text of all content blocks is concatenated into a `success=True` result. -/
def execute_tool_call (tool_name : String) (tool_arguments : ToolArguments) :
    ToolResult :=
  let result_content := call_tool tool_name tool_arguments
  { success := true
  , result := some (String.join (result_content.map TextContent.text))
  , error := none }

/-- A conversation message (`claude_agent.py` lines 15-18). -/
structure Message where
  role : String
  content : String
  deriving DecidableEq

/-- `clear_conversation()` from `claude_agent.py` lines 223-225: replaces the
history with the empty list. -/
def clear_conversation (_history : List Message) : List Message := []

/-- The MCP-connection fields of `ClaudeAgent` (`claude_agent.py` lines 39-40):
whether `self.mcp_session` and `self.exit_stack` are non-`None`. -/
structure McpConnection where
  mcp_session : Bool
  exit_stack : Bool
  deriving DecidableEq

/-- The state after `__init__` (`claude_agent.py` lines 38-40): both fields are
`None`. -/
def McpConnection.init : McpConnection :=
  { mcp_session := false, exit_stack := false }

/-- The endpoint is `Disconnected`: no client session and no open exit stack
(channel/process resources). -/
def McpConnection.Disconnected (st : McpConnection) : Prop :=
  st.mcp_session = false ∧ st.exit_stack = false

/-- States the agent code can actually be in: a session handle is only ever
set after the exit stack is (`connect_to_mcp_server` sets `exit_stack` at
line 47 before `mcp_session` at line 58, and `disconnect_from_mcp_server`
clears both together). -/
def McpConnection.WF (st : McpConnection) : Prop :=
  st.mcp_session = true → st.exit_stack = true

/-- `connect_to_mcp_server()` from `claude_agent.py` lines 42-59: returns
immediately when `mcp_session is not None`; otherwise opens the exit stack,
spawns the server and establishes a session.  The `Bool` component records
whether a new server process was spawned. -/
def connect_to_mcp_server (st : McpConnection) : McpConnection × Bool :=
  if st.mcp_session then (st, false)
  else ({ mcp_session := true, exit_stack := true }, true)

/-- `disconnect_from_mcp_server()` from `claude_agent.py` lines 61-66: when
`self.exit_stack` is set, close it and clear both fields; otherwise do
nothing. -/
def disconnect_from_mcp_server (st : McpConnection) : McpConnection :=
  if st.exit_stack then { mcp_session := false, exit_stack := false } else st

/-- `json.dumps(tool_result, indent=2)` as used at `claude_agent.py`
line 160, modelled structurally; no theorem depends on the serialisation
text. -/
def ToolResult.render (r : ToolResult) : String :=
  renderFields
    [ ("success", toString r.success)
    , ("result", renderOpt r.result)
    , ("error", renderOpt r.error) ]

/-- A content block of a model response: plain text, or a tool-use directive
`{id, name, input}` (`block.id`, `block.name`, `block.input` in
`claude_agent.py` lines 148-161). -/
inductive ContentBlock where
  | text (t : String)
  | tool_use (id : String) (name : String) (input : ToolArguments)
  deriving DecidableEq

/-- `block.type == "tool_use"`. -/
def ContentBlock.isToolUse : ContentBlock → Bool
  | .text _ => false
  | .tool_use _ _ _ => true

/-- Concatenation of the `text` blocks of a response, as the loops at
`claude_agent.py` lines 148-150, 190-192 and 202-204 compute it. -/
def concatTexts (blocks : List ContentBlock) : String :=
  String.join (blocks.map fun b =>
    match b with
    | .text t => t
    | .tool_use _ _ _ => "")

/-- The `(name, arguments)` pairs of the tool-use blocks of a response, in
response order: the arguments `execute_tool_call` is invoked with in the loop
at `claude_agent.py` lines 148-161. -/
def toolDirectives (blocks : List ContentBlock) : List (String × ToolArguments) :=
  blocks.filterMap fun b =>
    match b with
    | .text _ => none
    | .tool_use _ n a => some (n, a)

/-- The `tool_results` list built in the same loop (`claude_agent.py`
lines 158-161): one `{tool_use_id, content}` entry per tool-use block, the
content being the rendered `ToolResult` of executing that block's directive
with the given executor. -/
def toolResultsOf (execTool : String → ToolArguments → ToolResult)
    (blocks : List ContentBlock) : List (String × String) :=
  blocks.filterMap fun b =>
    match b with
    | .text _ => none
    | .tool_use id n a => some (id, (execTool n a).render)

/-- What a `chat` call leaves behind: the outcome (`Except.error e` meaning
the exception `e` escaped `chat`, `Except.ok s` meaning `chat` returned the
string `s`), the conversation history, the number of outbound model calls
attempted, and the executor invocations made, in order. -/
structure ChatOutcome where
  outcome : Except String String
  history : List Message
  modelCalls : Nat
  execCalls : List (String × ToolArguments)

/-- `chat(user_message)` from `claude_agent.py` lines 117-217, with the
external boundaries made explicit:

* `discovery` is the behaviour of `get_available_tools()` at line 123 —
  either the tool list, or an exception (connection/handshake failure).
  This call is OUTSIDE the `try` that starts at line 132, so its exception
  escapes `chat`.
* `r1` and `r2` are the behaviours of the first (line 134) and second
  (line 181) `self.client.messages.create` calls: a list of content blocks,
  or an exception.  Both are inside the `try`, whose `except` (lines 212-217)
  turns any exception into the synthetic assistant message
  `"Error communicating with Claude: " + str(e)`.
* `execTool` is the behaviour of `execute_tool_call` (line 153).  By the time
  it runs the session is established, so it never raises (its own `try`
  converts tool faults into a `ToolResult`); it is therefore a total
  function.

Mirrors the source: user message appended first; the tool round runs when
`response.content` is non-empty and some block has type `tool_use`; the
accumulated assistant text is appended only when non-empty; the second model
call is attempted whenever `tool_results` is non-empty. -/
def chat (history : List Message) (user_message : String)
    (discovery : Except String (List ToolDescriptor))
    (r1 r2 : Except String (List ContentBlock))
    (execTool : String → ToolArguments → ToolResult) : ChatOutcome :=
  let hist1 := history ++ [{ role := "user", content := user_message }]
  match discovery with
  | .error e =>
      { outcome := .error e, history := hist1, modelCalls := 0, execCalls := [] }
  | .ok _tools =>
    match r1 with
    | .error e =>
        { outcome := .ok ("Error communicating with Claude: " ++ e)
        , history := hist1 ++
            [{ role := "assistant"
             , content := "Error communicating with Claude: " ++ e }]
        , modelCalls := 1, execCalls := [] }
    | .ok blocks =>
      if blocks ≠ [] ∧ blocks.any ContentBlock.isToolUse then
        let assistant_message := concatTexts blocks
        let tool_results := toolResultsOf execTool blocks
        let hist2 := if assistant_message ≠ "" then
            hist1 ++ [{ role := "assistant", content := assistant_message }]
          else hist1
        if tool_results ≠ [] then
          match r2 with
          | .error e =>
              { outcome := .ok ("Error communicating with Claude: " ++ e)
              , history := hist2 ++
                  [{ role := "assistant"
                   , content := "Error communicating with Claude: " ++ e }]
              , modelCalls := 2, execCalls := toolDirectives blocks }
          | .ok blocks2 =>
              { outcome := .ok (concatTexts blocks2)
              , history := hist2 ++
                  [{ role := "assistant", content := concatTexts blocks2 }]
              , modelCalls := 2, execCalls := toolDirectives blocks }
        else
          { outcome := .ok (concatTexts blocks)
          , history := hist2 ++
              [{ role := "assistant", content := concatTexts blocks }]
          , modelCalls := 1, execCalls := toolDirectives blocks }
      else
        { outcome := .ok (concatTexts blocks)
        , history := hist1 ++
            [{ role := "assistant", content := concatTexts blocks }]
        , modelCalls := 1, execCalls := [] }

/-! ## Theorems for the claims -/

/-- C5: for every query and every `max_results ≥ 0`, `web_search` returns
`min(max_results, 3)` results, the `i`-th (1-based) titled
`Result i for 'query'`, with `total_results` echoing the input; in particular
the `query="test"`, `max_results=10` call yields exactly the three expected
titles and `total_results = 10`. -/
theorem C5_web_search_contract (query : String) (m : Int) (h : 0 ≤ m) :
    ((web_search query m).results.length : Int) = min m 3
    ∧ (web_search query m).total_results = m
    ∧ (∀ i (hi : i < (web_search query m).results.length),
        ((web_search query m).results.get ⟨i, hi⟩).title =
          "Result " ++ toString (i + 1) ++ " for \x27" ++ query ++ "\x27")
    ∧ (web_search "test" 10).results.map SearchResult.title =
        ["Result 1 for \x27test\x27", "Result 2 for \x27test\x27",
         "Result 3 for \x27test\x27"]
    ∧ (web_search "test" 10).total_results = 10 := by
  refine ⟨?_, rfl, ?_, by decide, by decide⟩
  · simp only [web_search, List.length_map, List.length_range]
    exact Int.toNat_of_nonneg (le_min h (by norm_num))
  · intro i hi
    simp [web_search, List.get_eq_getElem]

/-- Witness for C5 at `query = "test"`, `max_results = 10`. -/
theorem C5_web_search_contract_witness :
    ((web_search "test" 10).results.length : Int) = min (10 : Int) 3
    ∧ (web_search "test" 10).total_results = 10 := by
  have h := C5_web_search_contract "test" 10 (by norm_num)
  exact ⟨h.1, h.2.1⟩

/-- C6: for every input list of length `N` and every operation string,
`data_processing` reports `input_count = N`, `output_count = max(0, N - 1)`,
and a preview equal to the first `min(N, 2)` input elements. -/
theorem C6_data_processing_contract {α : Type} (data : List α) (operation : String) :
    (data_processing data operation).input_count = (data.length : Int)
    ∧ (data_processing data operation).output_count = max 0 ((data.length : Int) - 1)
    ∧ (data_processing data operation).preview = data.take 2
    ∧ (data_processing data operation).preview.length = min data.length 2 := by
  refine ⟨rfl, rfl, ?_, ?_⟩
  · cases data <;> simp [data_processing]
  · cases data with
    | nil => simp [data_processing]
    | cons a l =>
      simp only [data_processing, List.isEmpty_cons, Bool.false_eq_true,
        if_false, List.length_take, List.length_cons]
      omega

/-- C10: `file_operations` always answers `status = "success"`, reports
`"Unknown operation"` for any operation outside read/write/delete/list, and
echoes the `content` argument exactly when the operation is `"read"` and
`None` otherwise. -/
theorem C10_file_operations_total_success (operation path : String)
    (content : Option String) :
    (file_operations operation path content).status = "success"
    ∧ (operation ∉ (["read", "write", "delete", "list"] : List String) →
        (file_operations operation path content).message = "Unknown operation")
    ∧ (file_operations operation path content).content =
        (if operation = "read" then content else none) := by
  refine ⟨rfl, ?_, rfl⟩
  intro h
  simp only [List.mem_cons, List.not_mem_nil, or_false, not_or] at h
  obtain ⟨h1, h2, h3, h4⟩ := h
  have b1 : (operation == "read") = false := beq_eq_false_iff_ne.mpr h1
  have b2 : (operation == "write") = false := beq_eq_false_iff_ne.mpr h2
  have b3 : (operation == "delete") = false := beq_eq_false_iff_ne.mpr h3
  have b4 : (operation == "list") = false := beq_eq_false_iff_ne.mpr h4
  simp [file_operations, List.lookup, b1, b2, b3, b4]

/-- Witness for C10 at the unrecognised operation `"frobnicate"`. -/
theorem C10_file_operations_total_success_witness :
    (file_operations "frobnicate" "some/path" (some "data")).status = "success"
    ∧ (file_operations "frobnicate" "some/path" (some "data")).message =
        "Unknown operation"
    ∧ (file_operations "frobnicate" "some/path" (some "data")).content = none := by
  have h := C10_file_operations_total_success "frobnicate" "some/path" (some "data")
  exact ⟨h.1, h.2.1 (by decide), by simpa using h.2.2⟩

/-- C7: disconnect is idempotent, leaves any well-formed agent state
`Disconnected`, and is a no-op on the never-connected initial state. -/
theorem C7_disconnect_idempotent (st : McpConnection) (h : st.WF) :
    disconnect_from_mcp_server (disconnect_from_mcp_server st) =
      disconnect_from_mcp_server st
    ∧ (disconnect_from_mcp_server st).Disconnected
    ∧ disconnect_from_mcp_server McpConnection.init = McpConnection.init
    ∧ McpConnection.init.Disconnected := by
  refine ⟨?_, ?_, rfl, ⟨rfl, rfl⟩⟩
  · by_cases hx : st.exit_stack <;>
      simp [disconnect_from_mcp_server, hx]
  · by_cases hx : st.exit_stack
    · simp [disconnect_from_mcp_server, hx, McpConnection.Disconnected]
    · have hs : st.mcp_session = false := by
        cases hm : st.mcp_session
        · rfl
        · exact absurd (h hm) (by simpa using hx)
      simp [disconnect_from_mcp_server, hx, McpConnection.Disconnected, hs]

/-- Witness for C7 at the fully connected state. -/
theorem C7_disconnect_idempotent_witness :
    disconnect_from_mcp_server
        (disconnect_from_mcp_server { mcp_session := true, exit_stack := true }) =
      disconnect_from_mcp_server { mcp_session := true, exit_stack := true }
    ∧ (disconnect_from_mcp_server
        { mcp_session := true, exit_stack := true }).Disconnected
    ∧ disconnect_from_mcp_server McpConnection.init = McpConnection.init
    ∧ McpConnection.init.Disconnected :=
  C7_disconnect_idempotent { mcp_session := true, exit_stack := true }
    (fun _ => rfl)

/-- C9: `connect_to_mcp_server` with an established session returns
immediately — same state, no new server process spawned — and a second
connect after any connect never spawns. -/
theorem C9_connect_idempotent (st : McpConnection) (h : st.mcp_session = true) :
    connect_to_mcp_server st = (st, false)
    ∧ connect_to_mcp_server (connect_to_mcp_server st).1 =
        ((connect_to_mcp_server st).1, false) := by
  constructor
  · simp [connect_to_mcp_server, h]
  · simp [connect_to_mcp_server, h]

/-- Witness for C9 at the fully connected state. -/
theorem C9_connect_idempotent_witness :
    connect_to_mcp_server { mcp_session := true, exit_stack := true } =
      ({ mcp_session := true, exit_stack := true }, false)
    ∧ connect_to_mcp_server
        (connect_to_mcp_server { mcp_session := true, exit_stack := true }).1 =
        ((connect_to_mcp_server { mcp_session := true, exit_stack := true }).1,
          false) :=
  C9_connect_idempotent { mcp_session := true, exit_stack := true } rfl

/-- C1 counterexample: executing the unknown tool name `"bogus"` through
`execute_tool_call` yields `success = true` and `error = None` — not the
`success = false` with a non-empty `error` string the claim asserts.  (The
server's `call_tool` catches its own `ValueError` and answers with ordinary
text content, so the client sees a successful call.) -/
theorem C1_unknown_tool_counterexample :
    (execute_tool_call "bogus" ToolArguments.system_info).success = true
    ∧ (execute_tool_call "bogus" ToolArguments.system_info).error = none :=
  ⟨rfl, rfl⟩

/-- C1 amended: for every tool name outside the registry,
`execute_tool_call` returns `success = true`, `error = None`, and a result
text `"Error: Unknown tool: <name>"` that names the unknown tool — the
failure is reported in the result text, not in the success flag. -/
theorem C1_unknown_tool_amended (name : String) (args : ToolArguments)
    (h : name ∉ known_tool_names) :
    execute_tool_call name args =
      { success := true
      , result := some ("Error: Unknown tool: " ++ name)
      , error := none } := by
  simp only [known_tool_names, list_tools, List.map_cons, List.map_nil,
    List.mem_cons, List.not_mem_nil, or_false, not_or] at h
  obtain ⟨h1, h2, h3, h4, h5⟩ := h
  simp [execute_tool_call, call_tool, h1, h2, h3, h4, h5, String.join]

/-- Witness for the amended C1 at the unknown name `"bogus"`. -/
theorem C1_unknown_tool_witness :
    execute_tool_call "bogus" ToolArguments.system_info =
      { success := true
      , result := some "Error: Unknown tool: bogus"
      , error := none } := by
  have h := C1_unknown_tool_amended "bogus" ToolArguments.system_info (by decide)
  simpa using h

/-- A response with at least one tool-use block yields at least one
`tool_results` entry. -/
theorem toolResultsOf_ne_nil (execTool : String → ToolArguments → ToolResult)
    (blocks : List ContentBlock) (h : blocks.any ContentBlock.isToolUse = true) :
    toolResultsOf execTool blocks ≠ [] := by
  induction blocks with
  | nil => simp at h
  | cons b bs ih =>
    cases b with
    | text t =>
      simp only [List.any_cons, ContentBlock.isToolUse, Bool.false_or] at h
      simpa [toolResultsOf, List.filterMap_cons] using ih h
    | tool_use id n a =>
      simp [toolResultsOf, List.filterMap_cons]

/-- C2 counterexample: when `get_available_tools()` raises (for instance the
tool-server handshake fails), the exception escapes `chat` — the call is made
before the `try` block begins, so `chat` does raise for this behaviour of the
tool-server boundary. -/
theorem C2_chat_counterexample :
    (chat [] "hi" (.error "Connection closed") (.ok []) (.ok [])
      execute_tool_call).outcome = .error "Connection closed" := rfl

/-- C2 amended: once tool discovery succeeds, `chat` never raises — every
exception of the model boundary (and everything else inside the `try`) is
caught; in particular a first-model-call exception `e` becomes the synthetic
assistant message `"Error communicating with Claude: " ++ e`, appended to
history and returned.  Exceptions raised by `get_available_tools` before the
`try` begins propagate to the caller. -/
theorem C2_chat_never_raises_amended (history : List Message) (user : String)
    (tools : List ToolDescriptor) (r1 r2 : Except String (List ContentBlock))
    (execTool : String → ToolArguments → ToolResult) (e : String) :
    (chat history user (.ok tools) r1 r2 execTool).outcome.isOk = true
    ∧ chat history user (.ok tools) (.error e) r2 execTool =
        { outcome := .ok ("Error communicating with Claude: " ++ e)
        , history := (history ++ [{ role := "user", content := user }]) ++
            [{ role := "assistant"
             , content := "Error communicating with Claude: " ++ e }]
        , modelCalls := 1
        , execCalls := [] } := by
  refine ⟨?_, rfl⟩
  cases r1 with
  | error e1 => rfl
  | ok blocks =>
    simp only [chat]
    split
    · split
      · cases r2 <;> rfl
      · rfl
    · rfl

/-- C3: with tool discovery succeeding and a first model response `blocks`, a
response without tool-use blocks costs exactly one model call and no executor
invocation; a response with at least one tool-use block costs exactly two
model calls (whatever the second call does) and invokes the executor exactly
once per tool-use block, with that block's name and arguments, in response
order. -/
theorem C3_model_call_discipline (history : List Message) (user : String)
    (tools : List ToolDescriptor) (blocks : List ContentBlock)
    (r2 : Except String (List ContentBlock))
    (execTool : String → ToolArguments → ToolResult) :
    (blocks.any ContentBlock.isToolUse = false →
      (chat history user (.ok tools) (.ok blocks) r2 execTool).modelCalls = 1
      ∧ (chat history user (.ok tools) (.ok blocks) r2 execTool).execCalls = [])
    ∧ (blocks.any ContentBlock.isToolUse = true →
      (chat history user (.ok tools) (.ok blocks) r2 execTool).modelCalls = 2
      ∧ (chat history user (.ok tools) (.ok blocks) r2 execTool).execCalls =
          toolDirectives blocks) := by
  constructor
  · intro h
    constructor <;> simp [chat, h]
  · intro h
    have hne : blocks ≠ [] := by
      rintro rfl
      simp at h
    have htr := toolResultsOf_ne_nil execTool blocks h
    cases r2 <;> constructor <;> simp [chat, h, hne, htr]

/-- Witness for C3: a concrete two-directive response costs two model calls
and exactly the two matching executor invocations, in order. -/
theorem C3_model_call_discipline_witness :
    (chat [] "look this up" (.ok list_tools)
      (.ok [ContentBlock.tool_use "toolu_1" "web_search"
              (ToolArguments.web_search "test" 10),
            ContentBlock.text "and also",
            ContentBlock.tool_use "toolu_2" "system_info" ToolArguments.system_info])
      (.ok [ContentBlock.text "done"]) execute_tool_call).modelCalls = 2
    ∧ (chat [] "look this up" (.ok list_tools)
      (.ok [ContentBlock.tool_use "toolu_1" "web_search"
              (ToolArguments.web_search "test" 10),
            ContentBlock.text "and also",
            ContentBlock.tool_use "toolu_2" "system_info" ToolArguments.system_info])
      (.ok [ContentBlock.text "done"]) execute_tool_call).execCalls =
        [("web_search", ToolArguments.web_search "test" 10),
         ("system_info", ToolArguments.system_info)] := by
  have h := (C3_model_call_discipline [] "look this up" list_tools
    [ContentBlock.tool_use "toolu_1" "web_search" (ToolArguments.web_search "test" 10),
     ContentBlock.text "and also",
     ContentBlock.tool_use "toolu_2" "system_info" ToolArguments.system_info]
    (.ok [ContentBlock.text "done"]) execute_tool_call).2 (by decide)
  refine ⟨h.1, ?_⟩
  rw [h.2]
  decide

/-- C4 counterexample: after `clear_conversation()`, a `chat("hi")` whose
first model response carries both text and a tool-use block leaves THREE
messages in the history (user, the accompanying assistant text, and the final
assistant message) — not exactly two as the claim asserts. -/
theorem C4_clear_then_chat_counterexample :
    (chat (clear_conversation [{ role := "user", content := "old" },
        { role := "assistant", content := "old reply" }]) "hi" (.ok list_tools)
      (.ok [ContentBlock.text "Let me check",
            ContentBlock.tool_use "toolu_1" "web_search"
              (ToolArguments.web_search "test" 10)])
      (.ok [ContentBlock.text "All done"])
      execute_tool_call).history.length = 3 := by decide

/-- C4 amended: for every prior history, `clear_conversation()` followed by
`chat("hi")` whose first model response contains no tool-use block (the plain
text case, and likewise the model-error case) leaves exactly two messages:
the new user message followed by the resulting assistant message. -/
theorem C4_clear_then_chat_amended (history : List Message)
    (blocks : List ContentBlock) (r2 : Except String (List ContentBlock))
    (execTool : String → ToolArguments → ToolResult) (e : String)
    (h : blocks.any ContentBlock.isToolUse = false) :
    (chat (clear_conversation history) "hi" (.ok list_tools) (.ok blocks) r2
        execTool).history =
      [{ role := "user", content := "hi" },
       { role := "assistant", content := concatTexts blocks }]
    ∧ (chat (clear_conversation history) "hi" (.ok list_tools) (.error e) r2
        execTool).history =
      [{ role := "user", content := "hi" },
       { role := "assistant"
       , content := "Error communicating with Claude: " ++ e }] := by
  constructor
  · simp [chat, clear_conversation, h]
  · simp [chat, clear_conversation]

/-- Witness for the amended C4: a long prior history, a plain-text model
response. -/
theorem C4_clear_then_chat_witness :
    (chat (clear_conversation [{ role := "user", content := "one" },
        { role := "assistant", content := "two" },
        { role := "user", content := "three" },
        { role := "assistant", content := "four" }]) "hi" (.ok list_tools)
      (.ok [ContentBlock.text "Hello!"]) (.ok []) execute_tool_call).history =
      [{ role := "user", content := "hi" },
       { role := "assistant", content := "Hello!" }] := by
  have h := (C4_clear_then_chat_amended
    [{ role := "user", content := "one" },
     { role := "assistant", content := "two" },
     { role := "user", content := "three" },
     { role := "assistant", content := "four" }]
    [ContentBlock.text "Hello!"] (.ok []) execute_tool_call "unused"
    (by decide)).1
  rw [h]
  decide

/-- Every message of the list has role `"user"` or `"assistant"`. -/
def RolesOK (l : List Message) : Prop :=
  ∀ m ∈ l, m.role = "user" ∨ m.role = "assistant"

/-- Appending preserves `RolesOK`. -/
theorem RolesOK.append {l₁ l₂ : List Message} (h₁ : RolesOK l₁)
    (h₂ : RolesOK l₂) : RolesOK (l₁ ++ l₂) := by
  intro m hm
  rcases List.mem_append.mp hm with hm | hm
  exacts [h₁ m hm, h₂ m hm]

/-- Pushing a user message preserves `RolesOK`. -/
theorem RolesOK.push_user {l : List Message} (h : RolesOK l) (c : String) :
    RolesOK (l ++ [{ role := "user", content := c }]) := by
  refine h.append ?_
  intro m hm
  rcases List.mem_singleton.mp hm with rfl
  exact Or.inl rfl

/-- Pushing an assistant message preserves `RolesOK`. -/
theorem RolesOK.push_assistant {l : List Message} (h : RolesOK l) (c : String) :
    RolesOK (l ++ [{ role := "assistant", content := c }]) := by
  refine h.append ?_
  intro m hm
  rcases List.mem_singleton.mp hm with rfl
  exact Or.inr rfl

/-- C8: for every behaviour of the boundaries, if every message of the prior
history has role `"user"` or `"assistant"`, so does every message of the
history `chat` leaves behind — no tool-result role is ever stored — and
likewise (trivially) after `clear_conversation`. -/
theorem C8_history_roles_invariant (history : List Message) (user : String)
    (discovery : Except String (List ToolDescriptor))
    (r1 r2 : Except String (List ContentBlock))
    (execTool : String → ToolArguments → ToolResult)
    (h : RolesOK history) :
    RolesOK (chat history user discovery r1 r2 execTool).history
    ∧ RolesOK (clear_conversation history) := by
  have husr : RolesOK (history ++ [{ role := "user", content := user }]) :=
    h.push_user user
  refine ⟨?_, ?_⟩
  · unfold chat
    cases discovery with
    | error e => exact husr
    | ok tools =>
      cases r1 with
      | error e => exact husr.push_assistant _
      | ok blocks =>
        dsimp only
        split
        · have h2 : RolesOK (if concatTexts blocks ≠ "" then
              (history ++ [{ role := "user", content := user }]) ++
                [{ role := "assistant", content := concatTexts blocks }]
            else history ++ [{ role := "user", content := user }]) := by
            split
            · exact husr.push_assistant _
            · exact husr
          split
          · cases r2 with
            | error e => exact h2.push_assistant _
            | ok blocks2 => exact h2.push_assistant _
          · exact h2.push_assistant _
        · exact husr.push_assistant _
  · intro m hm
    simp [clear_conversation] at hm

/-- Witness for C8 on a concrete run with a tool round. -/
theorem C8_history_roles_invariant_witness :
    RolesOK (chat [{ role := "user", content := "earlier" }] "hi" (.ok list_tools)
      (.ok [ContentBlock.text "Let me check",
            ContentBlock.tool_use "toolu_1" "system_info" ToolArguments.system_info])
      (.ok [ContentBlock.text "All done"]) execute_tool_call).history
    ∧ RolesOK (clear_conversation [{ role := "user", content := "earlier" }]) := by
  have h := C8_history_roles_invariant [{ role := "user", content := "earlier" }]
    "hi" (.ok list_tools)
    (.ok [ContentBlock.text "Let me check",
          ContentBlock.tool_use "toolu_1" "system_info" ToolArguments.system_info])
    (.ok [ContentBlock.text "All done"]) execute_tool_call ?_
  · exact h
  · intro m hm
    rcases List.mem_singleton.mp hm with rfl
    exact Or.inl rfl

end AgentPrototype
